import Mathlib

/-!
Shallow embedding of the `POST /api/ask` request handler of the
Elearning-for-kids backend (`src/server.js`, dual-mode variant).

The handler is a pure function of
  * a `ServerConfig` (environment toggles fixed at startup),
  * an `AskRequest` (the parsed incoming request), and
  * a `Providers` oracle giving the outcome of each external call
    (transcription, transcript cleanup, generation, speech synthesis,
    document-store writes).
It returns the externally observable `Outcome` (JSON response or the
sequence of SSE frames) together with a `CallTrace` recording which
providers were invoked and what was forwarded to them.

JavaScript string operations used by the route (`trim`, `toLowerCase`,
`includes`) are embedded as structural recursions over the character
list so that every definition evaluates inside the kernel.
-/

/-- Whitespace characters stripped by the JS `String.prototype.trim` as used
by the route (space, tab, newline, carriage return). -/
def isWsChar (c : Char) : Bool := c == ' ' || c == '\t' || c == '\n' || c == '\r'

/-- Strip leading and trailing whitespace from a character list. -/
def trimList (l : List Char) : List Char :=
  ((l.dropWhile isWsChar).reverse.dropWhile isWsChar).reverse

/-- Embedding of JS `s.trim()`. -/
def strTrim (s : String) : String := String.mk (trimList s.data)

/-- ASCII lower-casing of one character (JS `toLowerCase` on the ASCII range,
which is all the route's substring tests need). -/
def lowerChar (c : Char) : Char :=
  if 'A' ≤ c ∧ c ≤ 'Z' then Char.ofNat (c.toNat + 32) else c

/-- Embedding of JS `s.toLowerCase()`. -/
def strLower (s : String) : String := String.mk (s.data.map lowerChar)

/-- `startsWithChars pat l` : does `l` start with `pat`? -/
def startsWithChars : List Char → List Char → Bool
  | [], _ => true
  | _ :: _, [] => false
  | a :: as, b :: bs => a == b && startsWithChars as bs

/-- `hasSubChars pat l` : does `pat` occur contiguously inside `l`? -/
def hasSubChars (pat : List Char) : List Char → Bool
  | [] => startsWithChars pat []
  | b :: bs => startsWithChars pat (b :: bs) || hasSubChars pat bs

/-- Embedding of JS `s.includes(pat)`. -/
def hasSub (s pat : String) : Bool := hasSubChars pat.data s.data

/-- One chat message (`{role, content}`) as passed to the generation
provider and stored in history. -/
structure ChatMsg where
  role : String
  content : String
deriving DecidableEq, Repr

/-- The user-facing error kinds of the route (spec §7). -/
inductive ErrKind where
  | missing_conversation
  | missing_language
  | unauthenticated
  | no_input
  | audio_too_short
  | invalid_language
  | processing_failed
deriving DecidableEq, Repr

/-- The JSON body returned on the buffered success path
(`{conversationId, transcript, text, audioBase64}`). -/
structure SuccessBody where
  conversationId : String
  transcript : String
  text : String
  audioBase64 : String
deriving DecidableEq, Repr

/-- One SSE frame written by the streaming path.
`errFrame (some k) m` is the early `sseError` frame `{type:'error', error:k,
message:m}`; `errFrame none m` is the in-stream `endWith({type:'error',
message:m})` frame, which carries no error kind. -/
inductive Frame where
  | delta (token : String)
  | message_end
  | tts (audioBase64 : String)
  | tts_error (message : String)
  | warn (message : String)
  | errFrame (kind : Option ErrKind) (message : String)
  | done (transcript : String) (text : String)
deriving DecidableEq, Repr

/-- The externally observable response: a JSON error with status, the
buffered 200 JSON body, or an SSE channel (`status` is the HTTP status at
the time headers were committed; `closed` records that `res.end()` ran). -/
inductive Outcome where
  | jsonError (status : Nat) (kind : ErrKind) (message : String)
  | jsonOk (body : SuccessBody)
  | sse (status : Nat) (frames : List Frame) (closed : Bool)
deriving DecidableEq, Repr

/-- Record of the provider calls made while serving one request.
`persistAttempt = some u` means the three Firestore writes were attempted
under uid `u`; `resolvedText` is the user text as resolved by §4.2 input
resolution (before the optional cleanup pass); `genMessages` is the message
list forwarded to the generation provider. -/
structure CallTrace where
  sttCalls : Nat
  cleanupCalls : Nat
  genCalls : Nat
  ttsCalls : Nat
  persistAttempt : Option String
  resolvedText : Option String
  genMessages : Option (List ChatMsg)
deriving DecidableEq, Repr

/-- Total number of provider invocations (transcription, cleanup,
generation, synthesis, storage) recorded in a trace. -/
def CallTrace.total (t : CallTrace) : Nat :=
  t.sttCalls + t.cleanupCalls + t.genCalls + t.ttsCalls +
    (match t.persistAttempt with | some _ => 1 | none => 0)

/-- Trace of a request that made no provider call. -/
def noCalls : CallTrace := ⟨0, 0, 0, 0, none, none, none⟩

/-- The parsed incoming request. `text` is the optional `body.text` string
field; `fileSize` is `req.file.size` when a multipart audio file with a
buffer is present; `firebaseUser` is the uid of the successfully verified
bearer identity (`req.firebaseUser`), `none` when there is no credential,
the credential is invalid, or no identity backend is configured;
`wantsStream` is the negotiated mode (`?stream=1` or
`Accept: text/event-stream`). `history` is the parsed `body.history`
(non-array or unparsable history is modelled as already collapsed to `[]`,
exactly as the route does). -/
structure AskRequest where
  answerLanguage : String
  speakLanguage : String
  conversationId : String
  uid : String
  history : List ChatMsg
  text : Option String
  fileSize : Option Nat
  firebaseUser : Option String
  wantsStream : Bool
deriving DecidableEq, Repr

/-- Environment configuration relevant to the route: the
`CLEAN_TRANSCRIPT` toggle and whether the Firebase Admin app (storage
backend) was initialised. -/
structure ServerConfig where
  cleanTranscript : Bool
  adminApp : Bool
deriving DecidableEq, Repr

/-- Oracle for the external calls: result of the transcription call
(`stt.text`, possibly failing), of the cleanup call (`output_text`, with
`""` covering both an empty and an absent `output_text`), of the buffered
generation call (`output_text`), the token sequence delivered by the
streaming generation call together with an optional failure after those
tokens, the synthesis result (base64 audio), and whether the Firestore
writes succeed. -/
structure Providers where
  stt : Except String String
  cleanup : Except String String
  gen : Except String String
  genTokens : List String
  genStreamErr : Option String
  tts : Except String String
  persistOk : Bool
deriving Repr

deriving instance DecidableEq for Except

deriving instance DecidableEq for Providers

/-- The uid-mismatch guard
`uid && req.firebaseUser && req.firebaseUser.uid && uid !== req.firebaseUser.uid`
(the leading `uid &&` is kept in the caller). -/
def uidMismatch (uid : String) : Option String → Prop
  | some v => ¬ v = "" ∧ ¬ uid = v
  | none => False

instance (uid : String) : (fu : Option String) → Decidable (uidMismatch uid fu)
  | some v => inferInstanceAs (Decidable (¬ v = "" ∧ ¬ uid = v))
  | none => inferInstanceAs (Decidable False)

/-- `req.file && req.file.buffer && req.file.size >= 5000`. -/
def audioQualifies (req : AskRequest) : Prop :=
  match req.fileSize with
  | some n => 5000 ≤ n
  | none => False

instance : (req : AskRequest) → Decidable (audioQualifies req) := fun req =>
  match h : req.fileSize with
  | some n => by rw [audioQualifies, h]; infer_instance
  | none => by rw [audioQualifies, h]; infer_instance

/-- `body.text && typeof body.text === 'string' && body.text.trim()`. -/
def textQualifies : Option String → Prop
  | some s => ¬ strTrim s = ""
  | none => False

instance : (t : Option String) → Decidable (textQualifies t)
  | some s => inferInstanceAs (Decidable (¬ strTrim s = ""))
  | none => inferInstanceAs (Decidable False)

/-- Substring tests of the outer-catch remapping, on the already
lower-cased message. -/
def mapErrorLower (m : String) : ErrKind × Nat × String :=
  if hasSub m "shorter than" || hasSub m "too short" then
    (ErrKind.audio_too_short, 400, "Audio too short. Please record at least 1 second.")
  else if hasSub m "invalid" && hasSub m "language" then
    (ErrKind.invalid_language, 400, "Unsupported language code.")
  else
    (ErrKind.processing_failed, 500, "Something went wrong while processing input.")

/-- The outer-catch remapping of a provider failure message to
(error kind, HTTP status, user message): substring tests on the lower-cased
message, defaulting to `processing_failed` / 500. -/
def mapError (msg : String) : ErrKind × Nat × String := mapErrorLower (strLower msg)

/-- Response produced by the outer `catch` block: a JSON error in every
mode (the streaming channel has not been opened when this block is
reachable). -/
def outerCatch (msg : String) : Outcome :=
  Outcome.jsonError (mapError msg).2.1 (mapError msg).1 (mapError msg).2.2

/-- A validation failure surfaced in the negotiated mode: as the
`sseError` frame (status set before the first byte, then the channel is
closed) in streaming mode, as a JSON error otherwise. -/
def earlyError (wantsStream : Bool) (status : Nat) (kind : ErrKind) (message : String) :
    Outcome :=
  if wantsStream then Outcome.sse status [Frame.errFrame (some kind) message] true
  else Outcome.jsonError status kind message

/-- The system instruction, parameterized by the answer language. -/
def systemPrompt (answerLanguage : String) : String :=
  "You are a " ++ answerLanguage ++ " kids e-learning helper for Indian kids. " ++
  "Use very simple words, short sentences, warm tone. " ++
  "Use chat history for continuity and clarify doubts with tiny examples. " ++
  "Avoid adult/harmful content. Always answer in " ++ answerLanguage ++ "."

/-- `MAX_TURNS = 6`. -/
def MAX_TURNS : Nat := 6

/-- `clientHistory.slice(-MAX_TURNS * 2)` : the most recent 12 messages. -/
def safeHistory (h : List ChatMsg) : List ChatMsg :=
  h.drop (h.length - MAX_TURNS * 2)

/-- The message list forwarded to the generation provider:
system instruction, truncated history, new user turn. -/
def composeMessages (answerLanguage userText : String) (h : List ChatMsg) : List ChatMsg :=
  ⟨"system", systemPrompt answerLanguage⟩ :: (safeHistory h ++ [⟨"user", userText⟩])

/-- The delta frames written by the streaming loop: one frame per
non-empty token, in arrival order (`if (token) ... send({type:'delta'})`). -/
def deltaFrames : List String → List Frame
  | [] => []
  | t :: ts => if t = "" then deltaFrames ts else Frame.delta t :: deltaFrames ts

/-- `fullAssistantText` as accumulated by the streaming loop
(`if (token) fullAssistantText += token`). -/
def accumulate : List String → String
  | [] => ""
  | t :: ts => if t = "" then accumulate ts else t ++ accumulate ts

/-- Plain concatenation of all tokens. -/
def concatTokens : List String → String
  | [] => ""
  | t :: ts => t ++ concatTokens ts

/-- Payloads of the delta frames of a frame list, in order. -/
def deltaPayloads : List Frame → List String :=
  List.filterMap (fun f => match f with | Frame.delta t => some t | _ => none)

/-- The non-empty tokens of a token list, in order. -/
def nonEmptyTokens : List String → List String
  | [] => []
  | t :: ts => if t = "" then nonEmptyTokens ts else t :: nonEmptyTokens ts

/-- The synthesis-outcome frames written on the streaming success path:
the `tts` frame when synthesis succeeds with non-empty audio, nothing when
the audio is empty, the non-fatal `tts_error` frame when synthesis fails. -/
def ttsFramesOf : Except String String → List Frame
  | Except.ok b => if b = "" then [] else [Frame.tts b]
  | Except.error e => [Frame.tts_error e]

/-- The persistence-outcome frames written on the streaming success path:
nothing when persistence is skipped (no admin app or no uid) or succeeds,
the non-fatal `warn` frame when the Firestore writes fail. -/
def persistFramesOf (adminApp : Bool) (uid : String) (ok : Bool) : List Frame :=
  if adminApp = true ∧ ¬ uid = "" then
    (if ok = true then [] else [Frame.warn "history_write_failed"])
  else []

/-- Shared tail of both generation branches, entered with the resolved
pre-cleanup text `rt`, the final user text `userText`, and the counts of
transcription/cleanup calls already made. Streaming mode: deltas, end
marker, synthesis outcome frame, best-effort persistence (warn frame on
failure), terminal done frame, channel closed; a generation failure after
`tokens` were delivered is caught by the inner `catch` and surfaced as a
kind-less terminal error frame. Buffered mode: generation, best-effort
synthesis (empty audio on failure), best-effort persistence, 200 JSON;
a generation failure propagates to the outer catch. -/
def generateStage (cfg : ServerConfig) (req : AskRequest) (P : Providers)
    (rt userText : String) (sttN cuN : Nat) : Outcome × CallTrace :=
  let messages := composeMessages (strTrim req.answerLanguage) userText req.history
  if req.wantsStream = true then
    match P.genStreamErr with
    | some m =>
        (Outcome.sse 200 (deltaFrames P.genTokens ++ [Frame.errFrame none m]) true,
         ⟨sttN, cuN, 1, 0, none, some rt, some messages⟩)
    | none =>
        (Outcome.sse 200
           (deltaFrames P.genTokens ++ [Frame.message_end] ++ ttsFramesOf P.tts ++
             persistFramesOf cfg.adminApp (strTrim req.uid) P.persistOk ++
             [Frame.done userText (accumulate P.genTokens)]) true,
         ⟨sttN, cuN, 1, 1,
          (if cfg.adminApp = true ∧ ¬ strTrim req.uid = "" then some (strTrim req.uid) else none),
          some rt, some messages⟩)
  else
    match P.gen with
    | Except.error e =>
        (outerCatch e, ⟨sttN, cuN, 1, 0, none, some rt, some messages⟩)
    | Except.ok out =>
        let assistantText := strTrim out
        let base64Audio := match P.tts with | Except.ok b => b | Except.error _ => ""
        (Outcome.jsonOk ⟨strTrim req.conversationId, userText, assistantText, base64Audio⟩,
         ⟨sttN, cuN, 1, 1,
          (if cfg.adminApp = true ∧ ¬ strTrim req.uid = "" then some (strTrim req.uid) else none),
          some rt, some messages⟩)

/-- The optional transcript-cleanup pass, entered with the resolved text
`rt`. When enabled and `rt` is non-empty, the cleanup call is made; a
thrown failure propagates to the outer catch, and an empty `output_text`
falls back to the original text (`(cleaned.output_text || userText).trim()`). -/
def cleanupStage (cfg : ServerConfig) (req : AskRequest) (P : Providers)
    (rt : String) (sttN : Nat) : Outcome × CallTrace :=
  if cfg.cleanTranscript = true ∧ ¬ rt = "" then
    match P.cleanup with
    | Except.error e => (outerCatch e, ⟨sttN, 1, 0, 0, none, some rt, none⟩)
    | Except.ok out =>
        generateStage cfg req P rt (strTrim (if out = "" then rt else out)) sttN 1
  else
    generateStage cfg req P rt rt sttN 0

/-- Input resolution (§4.2): a qualifying audio payload is transcribed
(its trimmed result accepted even when empty); otherwise a non-empty text
field is used; otherwise the request fails with `no_input`. A transcription
failure propagates to the outer catch. -/
def resolveStage (cfg : ServerConfig) (req : AskRequest) (P : Providers) :
    Outcome × CallTrace :=
  if audioQualifies req then
    match P.stt with
    | Except.error e => (outerCatch e, ⟨1, 0, 0, 0, none, none, none⟩)
    | Except.ok t => cleanupStage cfg req P (strTrim t) 1
  else if textQualifies req.text then
    cleanupStage cfg req P (strTrim (req.text.getD "")) 0
  else
    (earlyError req.wantsStream 400 ErrKind.no_input "No valid audio or text provided.",
     noCalls)

/-- The full `POST /api/ask` handler: the validation gate (conversation id,
languages, uid match), then input resolution, cleanup, generation,
synthesis and persistence, in the negotiated mode. -/
def handleAsk (cfg : ServerConfig) (req : AskRequest) (P : Providers) :
    Outcome × CallTrace :=
  if strTrim req.conversationId = "" then
    (earlyError req.wantsStream 400 ErrKind.missing_conversation "No conversationId.", noCalls)
  else if strTrim req.answerLanguage = "" ∨ strTrim req.speakLanguage = "" then
    (earlyError req.wantsStream 400 ErrKind.missing_language
      "Please select both Speaking and Answer languages.", noCalls)
  else if ¬ strTrim req.uid = "" ∧ uidMismatch (strTrim req.uid) req.firebaseUser then
    (earlyError req.wantsStream 401 ErrKind.unauthenticated "UID does not match.", noCalls)
  else
    resolveStage cfg req P

/-- The error kind carried by a frame (`some k` exactly for the
kind-carrying `sseError` frame). -/
def frameKind : Frame → Option ErrKind
  | Frame.errFrame (some k) _ => some k
  | _ => none

/-- The error kind surfaced by an outcome: the kind of a JSON error, or
the kind of the first kind-carrying error frame of an SSE response. -/
def Outcome.errKind : Outcome → Option ErrKind
  | Outcome.jsonError _ k _ => some k
  | Outcome.jsonOk _ => none
  | Outcome.sse _ frames _ => (frames.filterMap frameKind).head?

/-- The HTTP status of an outcome. -/
def Outcome.statusOf : Outcome → Nat
  | Outcome.jsonError s _ _ => s
  | Outcome.jsonOk _ => 200
  | Outcome.sse s _ _ => s

/-- Is this frame the synthesized-audio frame (`{type:'tts'}`)? -/
def isTtsFrame : Frame → Bool
  | Frame.tts _ => true
  | _ => false

/-- Is this frame a non-fatal warning frame (`tts_error` or `warn`)? -/
def isWarnFrame : Frame → Bool
  | Frame.tts_error _ => true
  | Frame.warn _ => true
  | _ => false

/-- Following the spec wording (§4.5(c)): a declared owner identity and a
verified identity both exist and they differ (existence of the declared
identity, `uid ≠ ""`, is kept in the caller). -/
def specUidConflict (uid : String) : Option String → Prop
  | some v => ¬ uid = v
  | none => False

instance (uid : String) : (fu : Option String) → Decidable (specUidConflict uid fu)
  | some v => inferInstanceAs (Decidable (¬ uid = v))
  | none => inferInstanceAs (Decidable False)

/-- Refinement twin following the spec wording of §4.5: the validation
checks in their fixed order, short-circuiting on the first failure, each
mapped to its error kind and status (§7): (a) conversation identifier
present and non-empty; (b) both language selections present and non-empty;
(c) declared and verified identity match when both exist; (d) input
resolves to qualifying audio or non-empty text. -/
def specValidationOrder (req : AskRequest) : Option (ErrKind × Nat) :=
  if strTrim req.conversationId = "" then
    some (ErrKind.missing_conversation, 400)
  else if strTrim req.answerLanguage = "" ∨ strTrim req.speakLanguage = "" then
    some (ErrKind.missing_language, 400)
  else if ¬ strTrim req.uid = "" ∧ specUidConflict (strTrim req.uid) req.firebaseUser then
    some (ErrKind.unauthenticated, 401)
  else if ¬ audioQualifies req ∧ ¬ textQualifies req.text then
    some (ErrKind.no_input, 400)
  else
    none

/-- The user-facing message attached to each validation error kind. -/
def valMessage : ErrKind → String
  | ErrKind.missing_conversation => "No conversationId."
  | ErrKind.missing_language => "Please select both Speaking and Answer languages."
  | ErrKind.unauthenticated => "UID does not match."
  | ErrKind.no_input => "No valid audio or text provided."
  | _ => ""

lemma empty_append (s : String) : "" ++ s = s := by
  cases s
  rfl

lemma accumulate_eq_concat : ∀ l : List String, accumulate l = concatTokens l := by
  intro l
  induction l with
  | nil => rfl
  | cons t ts ih =>
      by_cases ht : t = ""
      · subst ht
        simp [accumulate, concatTokens, ih, empty_append]
      · simp [accumulate, concatTokens, ht, ih]

lemma deltaPayloads_deltaFrames :
    ∀ l : List String, deltaPayloads (deltaFrames l) = nonEmptyTokens l := by
  intro l
  induction l with
  | nil => rfl
  | cons t ts ih =>
      by_cases ht : t = ""
      · simp [deltaFrames, nonEmptyTokens, ht, ih]
      · simp [deltaFrames, nonEmptyTokens, ht, deltaPayloads, List.filterMap_cons] at ih ⊢
        exact ih

lemma concat_nonEmptyTokens :
    ∀ l : List String, concatTokens (nonEmptyTokens l) = concatTokens l := by
  intro l
  induction l with
  | nil => rfl
  | cons t ts ih =>
      by_cases ht : t = ""
      · subst ht
        simp [nonEmptyTokens, concatTokens, ih, empty_append]
      · simp [nonEmptyTokens, ht, concatTokens, ih]

lemma deltaFrames_frameKind :
    ∀ l : List String, (deltaFrames l).filterMap frameKind = [] := by
  intro l
  induction l with
  | nil => rfl
  | cons t ts ih =>
      by_cases ht : t = ""
      · simp [deltaFrames, ht, ih]
      · simp [deltaFrames, ht, List.filterMap, frameKind, ih]

lemma mapError_kind_cases (m : String) :
    (mapError m).1 = ErrKind.audio_too_short ∨ (mapError m).1 = ErrKind.invalid_language ∨
      (mapError m).1 = ErrKind.processing_failed := by
  unfold mapError mapErrorLower
  split
  · left; rfl
  · split
    · right; left; rfl
    · right; right; rfl

lemma outerCatch_errKind (m : String) : (outerCatch m).errKind = some (mapError m).1 := rfl

lemma handleAsk_pass (cfg : ServerConfig) (req : AskRequest) (P : Providers)
    (h1 : ¬ strTrim req.conversationId = "")
    (h2 : ¬ (strTrim req.answerLanguage = "" ∨ strTrim req.speakLanguage = ""))
    (h3 : ¬ (¬ strTrim req.uid = "" ∧ uidMismatch (strTrim req.uid) req.firebaseUser)) :
    handleAsk cfg req P = resolveStage cfg req P := by
  simp [handleAsk, h1, h2, h3]

lemma resolve_audio (cfg : ServerConfig) (req : AskRequest) (P : Providers) (t : String)
    (h : audioQualifies req) (ht : P.stt = Except.ok t) :
    resolveStage cfg req P = cleanupStage cfg req P (strTrim t) 1 := by
  simp [resolveStage, h, ht]

lemma resolve_text (cfg : ServerConfig) (req : AskRequest) (P : Providers)
    (h : ¬ audioQualifies req) (ht : textQualifies req.text) :
    resolveStage cfg req P = cleanupStage cfg req P (strTrim (req.text.getD "")) 0 := by
  simp [resolveStage, h, ht]

lemma cleanup_off (cfg : ServerConfig) (req : AskRequest) (P : Providers) (rt : String)
    (sttN : Nat) (h : ¬ (cfg.cleanTranscript = true ∧ ¬ rt = "")) :
    cleanupStage cfg req P rt sttN = generateStage cfg req P rt rt sttN 0 := by
  simp [cleanupStage, h]

lemma cleanup_ok (cfg : ServerConfig) (req : AskRequest) (P : Providers) (rt out : String)
    (sttN : Nat) (h : cfg.cleanTranscript = true ∧ ¬ rt = "")
    (hc : P.cleanup = Except.ok out) :
    cleanupStage cfg req P rt sttN =
      generateStage cfg req P rt (strTrim (if out = "" then rt else out)) sttN 1 := by
  simp [cleanupStage, h, hc]

lemma ttsFramesOf_shape (r : Except String String) :
    ∀ f ∈ ttsFramesOf r, isTtsFrame f = true ∨ isWarnFrame f = true := by
  intro f hf
  rcases r with e | b
  · simp [ttsFramesOf] at hf
    subst hf
    right; rfl
  · by_cases hb : b = ""
    · simp [ttsFramesOf, hb] at hf
    · simp [ttsFramesOf, hb] at hf
      subst hf
      left; rfl

lemma ttsFramesOf_count (r : Except String String) :
    (ttsFramesOf r).countP isTtsFrame ≤ 1 := by
  rcases r with e | b
  · simp [ttsFramesOf, List.countP, List.countP.go, isTtsFrame]
  · by_cases hb : b = ""
    · simp [ttsFramesOf, hb, List.countP, List.countP.go]
    · simp [ttsFramesOf, hb, List.countP, List.countP.go, isTtsFrame]

lemma persistFramesOf_shape (a : Bool) (u : String) (ok : Bool) :
    ∀ f ∈ persistFramesOf a u ok, isWarnFrame f = true := by
  intro f hf
  unfold persistFramesOf at hf
  by_cases hg : a = true ∧ ¬ u = ""
  · rw [if_pos hg] at hf
    by_cases hok : ok = true
    · rw [if_pos hok] at hf
      simp at hf
    · rw [if_neg hok] at hf
      simp at hf
      subst hf
      rfl
  · rw [if_neg hg] at hf
    simp at hf

lemma persistFramesOf_count (a : Bool) (u : String) (ok : Bool) :
    (persistFramesOf a u ok).countP isTtsFrame = 0 := by
  unfold persistFramesOf
  by_cases hg : a = true ∧ ¬ u = ""
  · rw [if_pos hg]
    by_cases hok : ok = true
    · rw [if_pos hok]; rfl
    · rw [if_neg hok]; rfl
  · rw [if_neg hg]; rfl

lemma cleanup_fail (cfg : ServerConfig) (req : AskRequest) (P : Providers)
    (rt : String) (sttN : Nat) (e : String)
    (h : cfg.cleanTranscript = true ∧ ¬ rt = "") (hcu : P.cleanup = Except.error e) :
    cleanupStage cfg req P rt sttN = (outerCatch e, ⟨sttN, 1, 0, 0, none, some rt, none⟩) := by
  simp [cleanupStage, h, hcu]

lemma stream_success (cfg : ServerConfig) (req : AskRequest) (P : Providers)
    (rt ut : String) (sttN cuN : Nat)
    (hs : req.wantsStream = true) (hg : P.genStreamErr = none) :
    ∃ mid,
      (generateStage cfg req P rt ut sttN cuN).1 =
        Outcome.sse 200
          (deltaFrames P.genTokens ++ [Frame.message_end] ++ mid ++
            [Frame.done ut (accumulate P.genTokens)]) true ∧
      (∀ f ∈ mid, isTtsFrame f = true ∨ isWarnFrame f = true) ∧
      mid.countP isTtsFrame ≤ 1 := by
  refine ⟨ttsFramesOf P.tts ++ persistFramesOf cfg.adminApp (strTrim req.uid) P.persistOk,
    ?_, ?_, ?_⟩
  · simp [generateStage, hs, hg]
  · intro f hf
    rcases List.mem_append.mp hf with h | h
    · exact ttsFramesOf_shape P.tts f h
    · exact Or.inr (persistFramesOf_shape _ _ _ f h)
  · rw [List.countP_append, persistFramesOf_count]
    simpa using ttsFramesOf_count P.tts

lemma ttsFramesOf_frameKind (r : Except String String) :
    (ttsFramesOf r).filterMap frameKind = [] := by
  rcases r with e | b
  · rfl
  · by_cases hb : b = ""
    · simp [ttsFramesOf, hb]
    · simp [ttsFramesOf, hb, frameKind]

lemma persistFramesOf_frameKind (a : Bool) (u : String) (ok : Bool) :
    (persistFramesOf a u ok).filterMap frameKind = [] := by
  unfold persistFramesOf
  by_cases hg : a = true ∧ ¬ u = ""
  · rw [if_pos hg]
    by_cases hok : ok = true
    · rw [if_pos hok]; rfl
    · rw [if_neg hok]; rfl
  · rw [if_neg hg]; rfl

lemma generateStage_errKind (cfg : ServerConfig) (req : AskRequest) (P : Providers)
    (rt ut : String) (sttN cuN : Nat) :
    ∀ k, (generateStage cfg req P rt ut sttN cuN).1.errKind = some k →
      k = ErrKind.audio_too_short ∨ k = ErrKind.invalid_language ∨
        k = ErrKind.processing_failed := by
  intro k hk
  unfold generateStage at hk
  by_cases hs : req.wantsStream = true
  · rw [if_pos hs] at hk
    rcases hg : P.genStreamErr with _ | m
    · simp only [hg] at hk
      simp [Outcome.errKind, List.filterMap_append, deltaFrames_frameKind,
        ttsFramesOf_frameKind, persistFramesOf_frameKind, frameKind] at hk
    · simp only [hg] at hk
      simp [Outcome.errKind, List.filterMap_append, deltaFrames_frameKind, frameKind] at hk
  · rw [if_neg hs] at hk
    rcases hgen : P.gen with e | out
    · simp only [hgen] at hk
      rw [outerCatch_errKind] at hk
      have hmk := mapError_kind_cases e
      simp at hk
      rw [← hk]
      exact hmk
    · simp only [hgen] at hk
      simp [Outcome.errKind] at hk

lemma cleanupStage_errKind (cfg : ServerConfig) (req : AskRequest) (P : Providers)
    (rt : String) (sttN : Nat) :
    ∀ k, (cleanupStage cfg req P rt sttN).1.errKind = some k →
      k = ErrKind.audio_too_short ∨ k = ErrKind.invalid_language ∨
        k = ErrKind.processing_failed := by
  intro k hk
  unfold cleanupStage at hk
  by_cases hcl : cfg.cleanTranscript = true ∧ ¬ rt = ""
  · rw [if_pos hcl] at hk
    rcases hcu : P.cleanup with e | out
    · simp only [hcu] at hk
      rw [outerCatch_errKind] at hk
      have hmk := mapError_kind_cases e
      simp at hk
      rw [← hk]
      exact hmk
    · simp only [hcu] at hk
      exact generateStage_errKind cfg req P rt (strTrim (if out = "" then rt else out)) sttN 1 k hk
  · rw [if_neg hcl] at hk
    exact generateStage_errKind cfg req P rt rt sttN 0 k hk

lemma uidMismatch_iff_conflict (u : String) (fu : Option String) (hv : ¬ fu = some "") :
    uidMismatch u fu ↔ specUidConflict u fu := by
  cases fu with
  | none => simp [uidMismatch, specUidConflict]
  | some v =>
      have hv' : ¬ v = "" := by simpa using hv
      simp [uidMismatch, specUidConflict, hv']

/-- C3: the validation checks run before any provider call and in the
fixed spec order (conversation id, languages, identity match, input),
short-circuiting on the first failure; each failure yields its distinct
error kind and status, surfaced with the same kind, status and message in
both response modes (as a JSON error body or as the single terminal SSE
error frame); and when the whole gate passes, none of the four validation
kinds can be surfaced by the rest of the request. The hypothesis rules out
the degenerate verified identity whose uid is the empty string, which the
identity provider never issues. -/
theorem c3_validation_gate_order (cfg : ServerConfig) (req : AskRequest) (P : Providers)
    (hv : ¬ req.firebaseUser = some "") :
    (∀ k s, specValidationOrder req = some (k, s) →
        (handleAsk cfg req P).1 =
          (if req.wantsStream = true then
              Outcome.sse s [Frame.errFrame (some k) (valMessage k)] true
            else Outcome.jsonError s k (valMessage k)) ∧
        (handleAsk cfg req P).2.total = 0) ∧
    (specValidationOrder req = none →
        ∀ k, k = ErrKind.missing_conversation ∨ k = ErrKind.missing_language ∨
            k = ErrKind.unauthenticated ∨ k = ErrKind.no_input →
          ¬ (handleAsk cfg req P).1.errKind = some k) := by
  have hiff := uidMismatch_iff_conflict (strTrim req.uid) req.firebaseUser hv
  constructor
  · intro k s hspec
    by_cases h1 : strTrim req.conversationId = ""
    · rw [specValidationOrder, if_pos h1] at hspec
      simp at hspec
      obtain ⟨rfl, rfl⟩ := hspec
      constructor
      · simp [handleAsk, h1, earlyError, valMessage]
      · simp [handleAsk, h1, noCalls, CallTrace.total]
    · by_cases h2 : strTrim req.answerLanguage = "" ∨ strTrim req.speakLanguage = ""
      · rw [specValidationOrder, if_neg h1, if_pos h2] at hspec
        simp at hspec
        obtain ⟨rfl, rfl⟩ := hspec
        constructor
        · simp [handleAsk, h1, h2, earlyError, valMessage]
        · simp [handleAsk, h1, h2, noCalls, CallTrace.total]
      · by_cases h3 : ¬ strTrim req.uid = "" ∧ specUidConflict (strTrim req.uid) req.firebaseUser
        · rw [specValidationOrder, if_neg h1, if_neg h2, if_pos h3] at hspec
          simp at hspec
          obtain ⟨rfl, rfl⟩ := hspec
          have h3' : ¬ strTrim req.uid = "" ∧ uidMismatch (strTrim req.uid) req.firebaseUser :=
            ⟨h3.1, hiff.mpr h3.2⟩
          constructor
          · simp [handleAsk, h1, h2, h3', earlyError, valMessage]
          · simp [handleAsk, h1, h2, h3', noCalls, CallTrace.total]
        · by_cases h4 : ¬ audioQualifies req ∧ ¬ textQualifies req.text
          · rw [specValidationOrder, if_neg h1, if_neg h2, if_neg h3, if_pos h4] at hspec
            simp at hspec
            obtain ⟨rfl, rfl⟩ := hspec
            have h3' : ¬ (¬ strTrim req.uid = "" ∧ uidMismatch (strTrim req.uid) req.firebaseUser) :=
              fun hc => h3 ⟨hc.1, hiff.mp hc.2⟩
            constructor
            · rw [handleAsk_pass cfg req P h1 h2 h3']
              simp [resolveStage, h4.1, h4.2, earlyError, valMessage]
            · rw [handleAsk_pass cfg req P h1 h2 h3']
              simp [resolveStage, h4.1, h4.2, noCalls, CallTrace.total]
          · rw [specValidationOrder, if_neg h1, if_neg h2, if_neg h3, if_neg h4] at hspec
            simp at hspec
  · intro hnone k hk
    have h1 : ¬ strTrim req.conversationId = "" := by
      intro h
      rw [specValidationOrder, if_pos h] at hnone
      simp at hnone
    have h2 : ¬ (strTrim req.answerLanguage = "" ∨ strTrim req.speakLanguage = "") := by
      intro h
      rw [specValidationOrder, if_neg h1, if_pos h] at hnone
      simp at hnone
    have h3 : ¬ (¬ strTrim req.uid = "" ∧ specUidConflict (strTrim req.uid) req.firebaseUser) := by
      intro h
      rw [specValidationOrder, if_neg h1, if_neg h2, if_pos h] at hnone
      simp at hnone
    have h4 : ¬ (¬ audioQualifies req ∧ ¬ textQualifies req.text) := by
      intro h
      rw [specValidationOrder, if_neg h1, if_neg h2, if_neg h3, if_pos h] at hnone
      simp at hnone
    have h3' : ¬ (¬ strTrim req.uid = "" ∧ uidMismatch (strTrim req.uid) req.firebaseUser) :=
      fun hc => h3 ⟨hc.1, hiff.mp hc.2⟩
    rw [handleAsk_pass cfg req P h1 h2 h3']
    by_cases ha : audioQualifies req
    · rcases hstt : P.stt with e | t
      · simp only [resolveStage, if_pos ha, hstt]
        rw [outerCatch_errKind]
        intro hce
        have hmk := mapError_kind_cases e
        simp at hce
        rcases hk with rfl | rfl | rfl | rfl <;> rcases hmk with h | h | h <;> simp_all
      · rw [resolve_audio cfg req P t ha hstt]
        intro hce
        have := cleanupStage_errKind cfg req P (strTrim t) 1 k hce
        rcases hk with rfl | rfl | rfl | rfl <;> rcases this with h | h | h <;> simp_all
    · by_cases htq : textQualifies req.text
      · rw [resolve_text cfg req P ha htq]
        intro hce
        have := cleanupStage_errKind cfg req P (strTrim (req.text.getD "")) 0 k hce
        rcases hk with rfl | rfl | rfl | rfl <;> rcases this with h | h | h <;> simp_all
      · exact absurd ⟨ha, htq⟩ h4

lemma trimList_eq_rdropWhile (l : List Char) :
    trimList l = List.rdropWhile isWsChar (List.dropWhile isWsChar l) := by
  simp [trimList, List.rdropWhile]

lemma trimList_idem (l : List Char) : trimList (trimList l) = trimList l := by
  rw [trimList_eq_rdropWhile, trimList_eq_rdropWhile]
  have hB : List.dropWhile isWsChar
      (List.rdropWhile isWsChar (List.dropWhile isWsChar l)) =
      List.rdropWhile isWsChar (List.dropWhile isWsChar l) := by
    rw [List.dropWhile_eq_self_iff]
    intro hl
    obtain ⟨t, ht⟩ := List.rdropWhile_prefix isWsChar (List.dropWhile isWsChar l)
    have hlen : 0 < (List.dropWhile isWsChar l).length := by
      rw [← ht, List.length_append]
      omega
    have h0 := List.dropWhile_get_zero_not isWsChar l hlen
    have hget : (List.dropWhile isWsChar l).get ⟨0, hlen⟩ =
        (List.rdropWhile isWsChar (List.dropWhile isWsChar l)).get ⟨0, hl⟩ := by
      simp only [List.get_eq_getElem]
      exact (List.IsPrefix.getElem ⟨t, ht⟩ hl).symm
    rwa [hget] at h0
  rw [hB, List.rdropWhile_idempotent]

lemma strTrim_idem (s : String) : strTrim (strTrim s) = strTrim s := by
  simp [strTrim, trimList_idem]

/-- The request resolves to some input (§4.2): either a qualifying audio
payload whose transcription call succeeds, or a non-empty text field. -/
def inputOk (req : AskRequest) (P : Providers) : Prop :=
  (audioQualifies req ∧ ∃ s, P.stt = Except.ok s) ∨
  (¬ audioQualifies req ∧ textQualifies req.text)

/-- When the cleanup toggle is on, the cleanup call does not throw. -/
def cleanupOk (cfg : ServerConfig) (P : Providers) : Prop :=
  cfg.cleanTranscript = true → ∃ c, P.cleanup = Except.ok c

lemma resolve_exists (cfg : ServerConfig) (req : AskRequest) (P : Providers)
    (hi : inputOk req P) :
    ∃ rt sttN, resolveStage cfg req P = cleanupStage cfg req P rt sttN := by
  rcases hi with ⟨ha, s, hstt⟩ | ⟨ha, htq⟩
  · exact ⟨strTrim s, 1, resolve_audio cfg req P s ha hstt⟩
  · exact ⟨strTrim (req.text.getD ""), 0, resolve_text cfg req P ha htq⟩

lemma cleanupStage_exists (cfg : ServerConfig) (req : AskRequest) (P : Providers)
    (rt : String) (sttN : Nat) (hcl : cleanupOk cfg P) :
    ∃ ut cuN, cleanupStage cfg req P rt sttN = generateStage cfg req P rt ut sttN cuN := by
  by_cases hc : cfg.cleanTranscript = true ∧ ¬ rt = ""
  · obtain ⟨c, hcu⟩ := hcl hc.1
    exact ⟨strTrim (if c = "" then rt else c), 1, cleanup_ok cfg req P rt c sttN hc hcu⟩
  · exact ⟨rt, 0, cleanup_off cfg req P rt sttN hc⟩

lemma generate_stream_genfail (cfg : ServerConfig) (req : AskRequest) (P : Providers)
    (rt ut : String) (sttN cuN : Nat) (m : String)
    (hs : req.wantsStream = true) (hg : P.genStreamErr = some m) :
    (generateStage cfg req P rt ut sttN cuN).1 =
      Outcome.sse 200 (deltaFrames P.genTokens ++ [Frame.errFrame none m]) true := by
  simp [generateStage, hs, hg]

lemma generate_buffered_genfail (cfg : ServerConfig) (req : AskRequest) (P : Providers)
    (rt ut : String) (sttN cuN : Nat) (m : String)
    (hs : ¬ req.wantsStream = true) (hgen : P.gen = Except.error m) :
    (generateStage cfg req P rt ut sttN cuN).1 = outerCatch m := by
  simp [generateStage, hs, hgen]

/-- C1: in streaming mode, for any generation stream delivering tokens
T1..Tn and completing, the caller observes the delta frames in emission
order, whose payloads are exactly the non-empty tokens and reconstruct the
concatenation of T1..Tn, followed by exactly one end-of-message frame,
followed by at most one synthesized-audio frame (plus only non-fatal
warning frames for a failed synthesis or persistence), followed by exactly
one terminal done frame whose assistant-text field is the concatenation of
T1..Tn, after which the channel is closed. -/
theorem c1_streaming_frame_protocol (cfg : ServerConfig) (req : AskRequest) (P : Providers)
    (hs : req.wantsStream = true)
    (h1 : ¬ strTrim req.conversationId = "")
    (h2 : ¬ (strTrim req.answerLanguage = "" ∨ strTrim req.speakLanguage = ""))
    (h3 : ¬ (¬ strTrim req.uid = "" ∧ uidMismatch (strTrim req.uid) req.firebaseUser))
    (hi : inputOk req P) (hcl : cleanupOk cfg P)
    (hg : P.genStreamErr = none) :
    ∃ ut mid,
      (handleAsk cfg req P).1 =
        Outcome.sse 200
          (deltaFrames P.genTokens ++ [Frame.message_end] ++ mid ++
            [Frame.done ut (accumulate P.genTokens)]) true ∧
      deltaPayloads (deltaFrames P.genTokens) = nonEmptyTokens P.genTokens ∧
      accumulate P.genTokens = concatTokens P.genTokens ∧
      (∀ f ∈ mid, isTtsFrame f = true ∨ isWarnFrame f = true) ∧
      mid.countP isTtsFrame ≤ 1 := by
  rw [handleAsk_pass cfg req P h1 h2 h3]
  obtain ⟨rt, sttN, hr⟩ := resolve_exists cfg req P hi
  rw [hr]
  obtain ⟨ut, cuN, hcx⟩ := cleanupStage_exists cfg req P rt sttN hcl
  rw [hcx]
  obtain ⟨mid, hmid, hshape, hcount⟩ := stream_success cfg req P rt ut sttN cuN hs hg
  exact ⟨ut, mid, hmid, deltaPayloads_deltaFrames _, accumulate_eq_concat _, hshape, hcount⟩

def wCfg : ServerConfig := ⟨false, false⟩

def c1Req : AskRequest := ⟨"English", "English", "c1", "", [], some "hi", none, none, true⟩

def c1Prov : Providers :=
  ⟨Except.ok "t", Except.ok "", Except.ok "Hello", ["Hel", "lo"], none, Except.ok "AUD", true⟩

theorem c1_streaming_frame_protocol_witness :
    ∃ ut mid,
      (handleAsk wCfg c1Req c1Prov).1 =
        Outcome.sse 200
          (deltaFrames c1Prov.genTokens ++ [Frame.message_end] ++ mid ++
            [Frame.done ut (accumulate c1Prov.genTokens)]) true ∧
      deltaPayloads (deltaFrames c1Prov.genTokens) = nonEmptyTokens c1Prov.genTokens ∧
      accumulate c1Prov.genTokens = concatTokens c1Prov.genTokens ∧
      (∀ f ∈ mid, isTtsFrame f = true ∨ isWarnFrame f = true) ∧
      mid.countP isTtsFrame ≤ 1 :=
  c1_streaming_frame_protocol wCfg c1Req c1Prov rfl (by decide) (by decide) (by decide)
    (Or.inr ⟨by decide, by decide⟩) (fun h => absurd h (by decide)) rfl

def c2ReqNoConv : AskRequest :=
  ⟨"English", "English", "", "a", [], some "hi", none, some "b", false⟩

def c2Prov : Providers :=
  ⟨Except.ok "t", Except.ok "", Except.ok "a", [], none, Except.ok "b", true⟩

/-- C2 counterexample: a request whose declared uid `"a"` and successfully
verified uid `"b"` are both present and differ, but whose conversation id
is empty, is rejected with `missing_conversation` / 400, not with
`unauthenticated` / 401 — the earlier validation short-circuits first, so
the claim as stated (over every request) fails. -/
theorem c2_counterexample :
    (¬ strTrim c2ReqNoConv.uid = "" ∧ c2ReqNoConv.firebaseUser = some "b" ∧
      ¬ strTrim c2ReqNoConv.uid = "b") ∧
    (handleAsk wCfg c2ReqNoConv c2Prov).1 =
      Outcome.jsonError 400 ErrKind.missing_conversation "No conversationId." ∧
    ¬ (handleAsk wCfg c2ReqNoConv c2Prov).1.errKind = some ErrKind.unauthenticated ∧
    ¬ Outcome.statusOf (handleAsk wCfg c2ReqNoConv c2Prov).1 = 401 := by decide

/-- C2 (amended): for every request that passes the conversation-id and
language checks and in which the declared owner identity and a
successfully verified identity are both present and differ, the request is
rejected with the `unauthenticated` (authentication-mismatch) error and
HTTP status 401 before any provider call (transcription, generation,
synthesis, or storage), in both response modes. -/
theorem c2_uid_mismatch_rejected (cfg : ServerConfig) (req : AskRequest) (P : Providers)
    (h1 : ¬ strTrim req.conversationId = "")
    (h2 : ¬ (strTrim req.answerLanguage = "" ∨ strTrim req.speakLanguage = ""))
    (v : String) (hfu : req.firebaseUser = some v) (hv : ¬ v = "")
    (hud : ¬ strTrim req.uid = "") (hne : ¬ strTrim req.uid = v) :
    (handleAsk cfg req P).1 =
      (if req.wantsStream = true then
          Outcome.sse 401 [Frame.errFrame (some ErrKind.unauthenticated) "UID does not match."]
            true
        else Outcome.jsonError 401 ErrKind.unauthenticated "UID does not match.") ∧
    Outcome.statusOf (handleAsk cfg req P).1 = 401 ∧
    (handleAsk cfg req P).2.total = 0 := by
  have h3 : ¬ strTrim req.uid = "" ∧ uidMismatch (strTrim req.uid) req.firebaseUser := by
    refine ⟨hud, ?_⟩
    rw [hfu]
    exact ⟨hv, hne⟩
  refine ⟨?_, ?_, ?_⟩
  · simp [handleAsk, h1, h2, h3, earlyError]
  · by_cases hst : req.wantsStream = true <;>
      simp [handleAsk, h1, h2, h3, earlyError, hst, Outcome.statusOf]
  · simp [handleAsk, h1, h2, h3, noCalls, CallTrace.total]

def c2ReqMismatch : AskRequest :=
  ⟨"English", "English", "c1", "a", [], some "hi", none, some "b", false⟩

theorem c2_uid_mismatch_rejected_witness :
    (handleAsk wCfg c2ReqMismatch c2Prov).1 =
      Outcome.jsonError 401 ErrKind.unauthenticated "UID does not match." ∧
    (handleAsk wCfg c2ReqMismatch c2Prov).2.total = 0 := by
  have h := c2_uid_mismatch_rejected wCfg c2ReqMismatch c2Prov (by decide) (by decide)
    "b" rfl (by decide) (by decide) (by decide)
  refine ⟨?_, h.2.2⟩
  have h1 := h.1
  simpa [c2ReqMismatch] using h1

lemma generateStage_resolvedText (cfg : ServerConfig) (req : AskRequest) (P : Providers)
    (rt ut : String) (sttN cuN : Nat) :
    (generateStage cfg req P rt ut sttN cuN).2.resolvedText = some rt := by
  unfold generateStage
  by_cases hs : req.wantsStream = true
  · rcases hg : P.genStreamErr with _ | m <;> simp [hs, hg]
  · rcases hgen : P.gen with e | out <;> simp [hs, hgen]

lemma generateStage_genMessages (cfg : ServerConfig) (req : AskRequest) (P : Providers)
    (rt ut : String) (sttN cuN : Nat) :
    (generateStage cfg req P rt ut sttN cuN).2.genMessages =
      some (composeMessages (strTrim req.answerLanguage) ut req.history) := by
  unfold generateStage
  by_cases hs : req.wantsStream = true
  · rcases hg : P.genStreamErr with _ | m <;> simp [hs, hg]
  · rcases hgen : P.gen with e | out <;> simp [hs, hgen]

lemma generateStage_genCalls (cfg : ServerConfig) (req : AskRequest) (P : Providers)
    (rt ut : String) (sttN cuN : Nat) :
    (generateStage cfg req P rt ut sttN cuN).2.genCalls = 1 := by
  unfold generateStage
  by_cases hs : req.wantsStream = true
  · rcases hg : P.genStreamErr with _ | m <;> simp [hs, hg]
  · rcases hgen : P.gen with e | out <;> simp [hs, hgen]

lemma generateStage_sttCalls (cfg : ServerConfig) (req : AskRequest) (P : Providers)
    (rt ut : String) (sttN cuN : Nat) :
    (generateStage cfg req P rt ut sttN cuN).2.sttCalls = sttN := by
  unfold generateStage
  by_cases hs : req.wantsStream = true
  · rcases hg : P.genStreamErr with _ | m <;> simp [hs, hg]
  · rcases hgen : P.gen with e | out <;> simp [hs, hgen]

lemma cleanupStage_resolvedText (cfg : ServerConfig) (req : AskRequest) (P : Providers)
    (rt : String) (sttN : Nat) :
    (cleanupStage cfg req P rt sttN).2.resolvedText = some rt := by
  unfold cleanupStage
  by_cases hc : cfg.cleanTranscript = true ∧ ¬ rt = ""
  · rcases hcu : P.cleanup with e | out <;> simp [hc, hcu, generateStage_resolvedText]
  · simp [hc, generateStage_resolvedText]

lemma cleanupStage_sttCalls (cfg : ServerConfig) (req : AskRequest) (P : Providers)
    (rt : String) (sttN : Nat) :
    (cleanupStage cfg req P rt sttN).2.sttCalls = sttN := by
  unfold cleanupStage
  by_cases hc : cfg.cleanTranscript = true ∧ ¬ rt = ""
  · rcases hcu : P.cleanup with e | out <;> simp [hc, hcu, generateStage_sttCalls]
  · simp [hc, generateStage_sttCalls]

def c4StreamReq : AskRequest := ⟨"English", "English", "c1", "", [], some "hi", none, none, true⟩

def c4BufReq : AskRequest := ⟨"English", "English", "c1", "", [], some "hi", none, none, false⟩

def c4Prov : Providers :=
  ⟨Except.ok "t", Except.ok "", Except.error "too short", ["A"], some "too short",
   Except.ok "AUD", true⟩

/-- C4 counterexample: a generation failure with message `"too short"`
inside an open streaming channel is surfaced as a raw, kind-less terminal
error frame with the HTTP status still 200, while the very same message in
buffered mode is remapped to `audio_too_short` / 400 — so the substring
mapping is not surfaced identically in both response modes. -/
theorem c4_counterexample :
    (handleAsk wCfg c4StreamReq c4Prov).1 =
      Outcome.sse 200 [Frame.delta "A", Frame.errFrame none "too short"] true ∧
    (mapError "too short").1 = ErrKind.audio_too_short ∧
    (mapError "too short").2.1 = 400 ∧
    (handleAsk wCfg c4BufReq c4Prov).1 =
      Outcome.jsonError 400 ErrKind.audio_too_short
        "Audio too short. Please record at least 1 second." ∧
    ¬ (handleAsk wCfg c4StreamReq c4Prov).1.errKind = some ErrKind.audio_too_short ∧
    Outcome.statusOf (handleAsk wCfg c4StreamReq c4Prov).1 = 200 := by decide

/-- C4 (amended): provider failures that reach the outer catch are
inspected for known substrings and remapped — a message containing
"shorter than" or "too short" yields `audio_too_short` / 400, a message
containing both "invalid" and "language" yields `invalid_language` / 400,
any other message yields `processing_failed` / 500 — and this applies to
transcription and cleanup failures in either mode (both happen before the
streaming channel is opened) and to buffered-mode generation failures;
but a generation failure inside an already-open streaming channel is
instead surfaced as a kind-less terminal error frame carrying the raw
message, with the HTTP status unchanged at 200. -/
theorem c4_provider_error_mapping (cfg : ServerConfig) (req : AskRequest) (P : Providers)
    (h1 : ¬ strTrim req.conversationId = "")
    (h2 : ¬ (strTrim req.answerLanguage = "" ∨ strTrim req.speakLanguage = ""))
    (h3 : ¬ (¬ strTrim req.uid = "" ∧ uidMismatch (strTrim req.uid) req.firebaseUser)) :
    (∀ m, audioQualifies req → P.stt = Except.error m →
        (handleAsk cfg req P).1 =
          Outcome.jsonError (mapError m).2.1 (mapError m).1 (mapError m).2.2) ∧
    (∀ m, cfg.cleanTranscript = true → inputOk req P → P.cleanup = Except.error m →
        (∃ rt, (handleAsk cfg req P).2.resolvedText = some rt ∧ ¬ rt = "") →
        (handleAsk cfg req P).1 =
          Outcome.jsonError (mapError m).2.1 (mapError m).1 (mapError m).2.2) ∧
    (∀ m, ¬ req.wantsStream = true → inputOk req P → cleanupOk cfg P →
        P.gen = Except.error m →
        (handleAsk cfg req P).1 =
          Outcome.jsonError (mapError m).2.1 (mapError m).1 (mapError m).2.2) ∧
    (∀ m, req.wantsStream = true → inputOk req P → cleanupOk cfg P →
        P.genStreamErr = some m →
        (handleAsk cfg req P).1 =
          Outcome.sse 200 (deltaFrames P.genTokens ++ [Frame.errFrame none m]) true) := by
  refine ⟨?_, ?_, ?_, ?_⟩
  · intro m ha hstt
    rw [handleAsk_pass cfg req P h1 h2 h3]
    simp [resolveStage, ha, hstt, outerCatch]
  · intro m hct hi hcu hex
    rw [handleAsk_pass cfg req P h1 h2 h3] at hex ⊢
    obtain ⟨rt, sttN, hr⟩ := resolve_exists cfg req P hi
    rw [hr] at hex ⊢
    obtain ⟨rt', hrt', hne⟩ := hex
    rw [cleanupStage_resolvedText cfg req P rt sttN] at hrt'
    have hne' : ¬ rt = "" := by
      rw [Option.some.inj hrt']
      exact hne
    rw [cleanup_fail cfg req P rt sttN m ⟨hct, hne'⟩ hcu]
    rfl
  · intro m hst hi hcl hgen
    rw [handleAsk_pass cfg req P h1 h2 h3]
    obtain ⟨rt, sttN, hr⟩ := resolve_exists cfg req P hi
    rw [hr]
    obtain ⟨ut, cuN, hcx⟩ := cleanupStage_exists cfg req P rt sttN hcl
    rw [hcx]
    rw [generate_buffered_genfail cfg req P rt ut sttN cuN m hst hgen]
    rfl
  · intro m hst hi hcl hg
    rw [handleAsk_pass cfg req P h1 h2 h3]
    obtain ⟨rt, sttN, hr⟩ := resolve_exists cfg req P hi
    rw [hr]
    obtain ⟨ut, cuN, hcx⟩ := cleanupStage_exists cfg req P rt sttN hcl
    rw [hcx]
    exact generate_stream_genfail cfg req P rt ut sttN cuN m hst hg

def c4AudioReq : AskRequest :=
  ⟨"English", "English", "c1", "", [], none, some 6000, none, false⟩

def c4ProvSttFail : Providers :=
  ⟨Except.error "Audio is TOO SHORT to transcribe", Except.ok "", Except.ok "a", [], none,
   Except.ok "b", true⟩

theorem c4_provider_error_mapping_witness :
    (handleAsk wCfg c4AudioReq c4ProvSttFail).1 =
      Outcome.jsonError 400 ErrKind.audio_too_short
        "Audio too short. Please record at least 1 second." := by
  have h := (c4_provider_error_mapping wCfg c4AudioReq c4ProvSttFail (by decide) (by decide)
    (by decide)).1 "Audio is TOO SHORT to transcribe" (by decide) rfl
  rw [h]
  decide

lemma generate_buffered_ttsfail (cfg : ServerConfig) (req : AskRequest) (P : Providers)
    (rt ut : String) (sttN cuN : Nat) (out e : String)
    (hst : ¬ req.wantsStream = true) (hgen : P.gen = Except.ok out)
    (htts : P.tts = Except.error e) :
    (generateStage cfg req P rt ut sttN cuN).1 =
      Outcome.jsonOk ⟨strTrim req.conversationId, ut, strTrim out, ""⟩ := by
  simp [generateStage, hst, hgen, htts]

lemma generate_stream_ttsfail (cfg : ServerConfig) (req : AskRequest) (P : Providers)
    (rt ut : String) (sttN cuN : Nat) (e : String)
    (hst : req.wantsStream = true) (hg : P.genStreamErr = none)
    (htts : P.tts = Except.error e) :
    (generateStage cfg req P rt ut sttN cuN).1 =
      Outcome.sse 200
        (deltaFrames P.genTokens ++ [Frame.message_end] ++ [Frame.tts_error e] ++
          persistFramesOf cfg.adminApp (strTrim req.uid) P.persistOk ++
          [Frame.done ut (accumulate P.genTokens)]) true := by
  simp [generateStage, hst, hg, htts, ttsFramesOf]

/-- C5: when generation succeeds but speech synthesis fails, the request
still succeeds — buffered mode returns the 200 JSON body with an empty
`audioBase64` field, and streaming mode emits the non-fatal `tts_error`
warning frame and still emits the terminal done frame with the channel
closed and the status still 200; the synthesis failure neither changes the
response status nor aborts the stream. -/
theorem c5_tts_failure_nonfatal (cfg : ServerConfig) (req : AskRequest) (P : Providers)
    (h1 : ¬ strTrim req.conversationId = "")
    (h2 : ¬ (strTrim req.answerLanguage = "" ∨ strTrim req.speakLanguage = ""))
    (h3 : ¬ (¬ strTrim req.uid = "" ∧ uidMismatch (strTrim req.uid) req.firebaseUser))
    (hi : inputOk req P) (hcl : cleanupOk cfg P)
    (e : String) (htts : P.tts = Except.error e) :
    (∀ out, ¬ req.wantsStream = true → P.gen = Except.ok out →
        ∃ ut, (handleAsk cfg req P).1 =
            Outcome.jsonOk ⟨strTrim req.conversationId, ut, strTrim out, ""⟩ ∧
          Outcome.statusOf (handleAsk cfg req P).1 = 200) ∧
    (req.wantsStream = true → P.genStreamErr = none →
        ∃ ut, (handleAsk cfg req P).1 =
            Outcome.sse 200
              (deltaFrames P.genTokens ++ [Frame.message_end] ++ [Frame.tts_error e] ++
                persistFramesOf cfg.adminApp (strTrim req.uid) P.persistOk ++
                [Frame.done ut (accumulate P.genTokens)]) true ∧
          Outcome.statusOf (handleAsk cfg req P).1 = 200) := by
  obtain ⟨rt, sttN, hr⟩ := resolve_exists cfg req P hi
  obtain ⟨ut, cuN, hcx⟩ := cleanupStage_exists cfg req P rt sttN hcl
  constructor
  · intro out hst hgen
    rw [handleAsk_pass cfg req P h1 h2 h3, hr, hcx]
    refine ⟨ut, generate_buffered_ttsfail cfg req P rt ut sttN cuN out e hst hgen htts, ?_⟩
    rw [generate_buffered_ttsfail cfg req P rt ut sttN cuN out e hst hgen htts]
    rfl
  · intro hst hg
    rw [handleAsk_pass cfg req P h1 h2 h3, hr, hcx]
    refine ⟨ut, generate_stream_ttsfail cfg req P rt ut sttN cuN e hst hg htts, ?_⟩
    rw [generate_stream_ttsfail cfg req P rt ut sttN cuN e hst hg htts]
    rfl

def c5Req : AskRequest := ⟨"English", "English", "c1", "", [], some "hi", none, none, false⟩

def c5Prov : Providers :=
  ⟨Except.ok "t", Except.ok "", Except.ok "Four!", ["Fo", "ur!"], none,
   Except.error "tts down", true⟩

theorem c5_tts_failure_nonfatal_witness :
    ∃ ut, (handleAsk wCfg c5Req c5Prov).1 =
        Outcome.jsonOk ⟨strTrim c5Req.conversationId, ut, strTrim "Four!", ""⟩ ∧
      Outcome.statusOf (handleAsk wCfg c5Req c5Prov).1 = 200 :=
  (c5_tts_failure_nonfatal wCfg c5Req c5Prov (by decide) (by decide) (by decide)
    (Or.inr ⟨by decide, by decide⟩) (fun hcl => absurd hcl (by decide))
    "tts down" rfl).1 "Four!" (by decide) rfl

lemma resolve_exists_trim (cfg : ServerConfig) (req : AskRequest) (P : Providers)
    (hi : inputOk req P) :
    ∃ x sttN, resolveStage cfg req P = cleanupStage cfg req P (strTrim x) sttN := by
  rcases hi with ⟨ha, s, hstt⟩ | ⟨ha, htq⟩
  · exact ⟨s, 1, resolve_audio cfg req P s ha hstt⟩
  · exact ⟨req.text.getD "", 0, resolve_text cfg req P ha htq⟩

def c6Cfg : ServerConfig := ⟨true, false⟩

def c6Req : AskRequest := ⟨"English", "English", "c1", "", [], some "hi", none, none, false⟩

def c6ProvFail : Providers :=
  ⟨Except.ok "t", Except.error "cleanup boom", Except.ok "a", [], none, Except.ok "b", true⟩

/-- C6 counterexample: with the cleanup toggle enabled and a resolved
input text `"hi"`, a cleanup pass that fails (throws) does not preserve
the original text — the exception propagates to the outer catch, the
request fails with `processing_failed` / 500, and nothing is ever
forwarded to the generation provider. -/
theorem c6_counterexample :
    c6Cfg.cleanTranscript = true ∧
    (handleAsk c6Cfg c6Req c6ProvFail).2.resolvedText = some "hi" ∧
    (handleAsk c6Cfg c6Req c6ProvFail).1 =
      Outcome.jsonError 500 ErrKind.processing_failed
        "Something went wrong while processing input." ∧
    (handleAsk c6Cfg c6Req c6ProvFail).2.genCalls = 0 ∧
    (handleAsk c6Cfg c6Req c6ProvFail).2.genMessages = none := by decide

/-- C6 (amended): when the transcript-cleanup toggle is enabled, a cleanup
pass that returns an empty result preserves the original resolved input
text — the user text forwarded to generation is never replaced by an empty
cleanup output, and a non-empty output is forwarded trimmed; but a cleanup
pass that fails (throws) is not caught: the request aborts through the
outer error mapping and no user text is forwarded to generation at all. -/
theorem c6_cleanup_empty_preserves (cfg : ServerConfig) (req : AskRequest) (P : Providers)
    (h1 : ¬ strTrim req.conversationId = "")
    (h2 : ¬ (strTrim req.answerLanguage = "" ∨ strTrim req.speakLanguage = ""))
    (h3 : ¬ (¬ strTrim req.uid = "" ∧ uidMismatch (strTrim req.uid) req.firebaseUser))
    (hct : cfg.cleanTranscript = true) (hi : inputOk req P) :
    ∃ rt, (handleAsk cfg req P).2.resolvedText = some rt ∧
      (¬ rt = "" → P.cleanup = Except.ok "" →
          (handleAsk cfg req P).2.genMessages =
            some (composeMessages (strTrim req.answerLanguage) rt req.history) ∧
          (handleAsk cfg req P).2.genCalls = 1) ∧
      (∀ c, ¬ rt = "" → P.cleanup = Except.ok c → ¬ c = "" →
          (handleAsk cfg req P).2.genMessages =
            some (composeMessages (strTrim req.answerLanguage) (strTrim c) req.history)) ∧
      (∀ e, ¬ rt = "" → P.cleanup = Except.error e →
          (handleAsk cfg req P).1 =
            Outcome.jsonError (mapError e).2.1 (mapError e).1 (mapError e).2.2 ∧
          (handleAsk cfg req P).2.genCalls = 0 ∧
          (handleAsk cfg req P).2.genMessages = none) := by
  rw [handleAsk_pass cfg req P h1 h2 h3]
  obtain ⟨x, sttN, hr⟩ := resolve_exists_trim cfg req P hi
  rw [hr]
  refine ⟨strTrim x, cleanupStage_resolvedText cfg req P (strTrim x) sttN, ?_, ?_, ?_⟩
  · intro hrt hcu
    rw [cleanup_ok cfg req P (strTrim x) "" sttN ⟨hct, hrt⟩ hcu]
    constructor
    · rw [generateStage_genMessages]
      simp [strTrim_idem]
    · exact generateStage_genCalls cfg req P _ _ sttN 1
  · intro c hrt hcu hc
    rw [cleanup_ok cfg req P (strTrim x) c sttN ⟨hct, hrt⟩ hcu]
    rw [generateStage_genMessages]
    simp [hc]
  · intro e hrt hcu
    rw [cleanup_fail cfg req P (strTrim x) sttN e ⟨hct, hrt⟩ hcu]
    exact ⟨rfl, rfl, rfl⟩

def c6ProvEmpty : Providers :=
  ⟨Except.ok "t", Except.ok "", Except.ok "a", [], none, Except.ok "b", true⟩

theorem c6_cleanup_empty_preserves_witness :
    (handleAsk c6Cfg c6Req c6ProvEmpty).2.genMessages =
      some (composeMessages (strTrim c6Req.answerLanguage) "hi" c6Req.history) := by
  obtain ⟨rt, hrt, hempty, _, _⟩ := c6_cleanup_empty_preserves c6Cfg c6Req c6ProvEmpty
    (by decide) (by decide) (by decide) rfl (Or.inr ⟨by decide, by decide⟩)
  rw [show (handleAsk c6Cfg c6Req c6ProvEmpty).2.resolvedText = some "hi" from by decide] at hrt
  have hrteq : rt = "hi" := (Option.some.inj hrt).symm
  subst hrteq
  exact (hempty (by decide) rfl).1

/-- C7: only the most recent 12 messages of the caller-supplied history
are forwarded to the generation provider, in their original relative order
(the forwarded window is a suffix of the supplied history), placed between
the system instruction and the new user turn; in particular a history of
20 messages is truncated to exactly its most recent 12. -/
theorem c7_history_truncation (cfg : ServerConfig) (req : AskRequest) (P : Providers)
    (h1 : ¬ strTrim req.conversationId = "")
    (h2 : ¬ (strTrim req.answerLanguage = "" ∨ strTrim req.speakLanguage = ""))
    (h3 : ¬ (¬ strTrim req.uid = "" ∧ uidMismatch (strTrim req.uid) req.firebaseUser))
    (hi : inputOk req P) (hcl : cleanupOk cfg P) :
    ∃ ut,
      (handleAsk cfg req P).2.genMessages =
        some (ChatMsg.mk "system" (systemPrompt (strTrim req.answerLanguage)) ::
          (safeHistory req.history ++ [ChatMsg.mk "user" ut])) ∧
      safeHistory req.history = req.history.drop (req.history.length - 12) ∧
      safeHistory req.history <:+ req.history ∧
      (safeHistory req.history).length = min req.history.length 12 ∧
      (req.history.length = 20 → safeHistory req.history = req.history.drop 8) := by
  rw [handleAsk_pass cfg req P h1 h2 h3]
  obtain ⟨rt, sttN, hr⟩ := resolve_exists cfg req P hi
  rw [hr]
  obtain ⟨ut, cuN, hcx⟩ := cleanupStage_exists cfg req P rt sttN hcl
  rw [hcx]
  refine ⟨ut, ?_, rfl, ?_, ?_, ?_⟩
  · rw [generateStage_genMessages]
    rfl
  · exact List.drop_suffix _ _
  · simp only [safeHistory, MAX_TURNS, List.length_drop]
    omega
  · intro h20
    simp [safeHistory, MAX_TURNS, h20]

def c7Req : AskRequest :=
  ⟨"English", "English", "c1", "", List.replicate 20 ⟨"user", "x"⟩, some "hi", none, none,
   false⟩

def c7Prov : Providers :=
  ⟨Except.ok "t", Except.ok "", Except.ok "a", [], none, Except.ok "b", true⟩

theorem c7_history_truncation_witness :
    ∃ ut,
      (handleAsk wCfg c7Req c7Prov).2.genMessages =
        some (ChatMsg.mk "system" (systemPrompt (strTrim c7Req.answerLanguage)) ::
          (safeHistory c7Req.history ++ [ChatMsg.mk "user" ut])) ∧
      safeHistory c7Req.history = c7Req.history.drop (c7Req.history.length - 12) ∧
      safeHistory c7Req.history <:+ c7Req.history ∧
      (safeHistory c7Req.history).length = min c7Req.history.length 12 ∧
      (c7Req.history.length = 20 → safeHistory c7Req.history = c7Req.history.drop 8) :=
  c7_history_truncation wCfg c7Req c7Prov (by decide) (by decide) (by decide)
    (Or.inr ⟨by decide, by decide⟩) (fun h => absurd h (by decide))

/-- C8: an audio payload smaller than the 5000-byte threshold is treated
as absent input — the transcription provider is never called; if a
non-empty text field is also supplied, that text (trimmed) becomes the
resolved user input, and otherwise the request fails with the `no_input`
error kind (status 400, same kind in both modes, with no provider call). -/
theorem c8_undersized_audio (cfg : ServerConfig) (req : AskRequest) (P : Providers)
    (h1 : ¬ strTrim req.conversationId = "")
    (h2 : ¬ (strTrim req.answerLanguage = "" ∨ strTrim req.speakLanguage = ""))
    (h3 : ¬ (¬ strTrim req.uid = "" ∧ uidMismatch (strTrim req.uid) req.firebaseUser))
    (n : Nat) (hf : req.fileSize = some n) (hn : n < 5000) :
    (textQualifies req.text →
        (handleAsk cfg req P).2.sttCalls = 0 ∧
        (handleAsk cfg req P).2.resolvedText = some (strTrim (req.text.getD "")) ∧
        ¬ (handleAsk cfg req P).1.errKind = some ErrKind.no_input) ∧
    (¬ textQualifies req.text →
        (handleAsk cfg req P).1 =
          (if req.wantsStream = true then
              Outcome.sse 400 [Frame.errFrame (some ErrKind.no_input)
                "No valid audio or text provided."] true
            else Outcome.jsonError 400 ErrKind.no_input "No valid audio or text provided.") ∧
        (handleAsk cfg req P).2.total = 0) := by
  have ha : ¬ audioQualifies req := by
    rw [audioQualifies, hf]
    omega
  constructor
  · intro htq
    rw [handleAsk_pass cfg req P h1 h2 h3, resolve_text cfg req P ha htq]
    refine ⟨cleanupStage_sttCalls cfg req P _ 0, cleanupStage_resolvedText cfg req P _ 0, ?_⟩
    intro hk
    rcases cleanupStage_errKind cfg req P _ 0 _ hk with h | h | h <;> simp_all
  · intro htq
    rw [handleAsk_pass cfg req P h1 h2 h3]
    constructor
    · simp [resolveStage, ha, htq, earlyError]
    · simp [resolveStage, ha, htq, noCalls, CallTrace.total]

def c8Req : AskRequest :=
  ⟨"English", "English", "c1", "", [], some " hello ", some 4999, none, false⟩

def c8Prov : Providers :=
  ⟨Except.ok "t", Except.ok "", Except.ok "a", [], none, Except.ok "b", true⟩

theorem c8_undersized_audio_witness :
    (handleAsk wCfg c8Req c8Prov).2.sttCalls = 0 ∧
    (handleAsk wCfg c8Req c8Prov).2.resolvedText = some (strTrim (c8Req.text.getD "")) ∧
    ¬ (handleAsk wCfg c8Req c8Prov).1.errKind = some ErrKind.no_input :=
  (c8_undersized_audio wCfg c8Req c8Prov (by decide) (by decide) (by decide) 4999 rfl
    (by decide)).1 (by decide)

lemma generateStage_persistAttempt (cfg : ServerConfig) (req : AskRequest) (P : Providers)
    (rt ut : String) (sttN cuN : Nat) :
    (¬ req.wantsStream = true → ∀ out, P.gen = Except.ok out →
        (generateStage cfg req P rt ut sttN cuN).2.persistAttempt =
          (if cfg.adminApp = true ∧ ¬ strTrim req.uid = "" then some (strTrim req.uid)
           else none)) ∧
    (req.wantsStream = true → P.genStreamErr = none →
        (generateStage cfg req P rt ut sttN cuN).2.persistAttempt =
          (if cfg.adminApp = true ∧ ¬ strTrim req.uid = "" then some (strTrim req.uid)
           else none)) := by
  constructor
  · intro hst out hgen
    simp [generateStage, hst, hgen]
  · intro hst hg
    simp [generateStage, hst, hg]

/-- C9: a request carrying a non-empty declared uid while no identity was
successfully verified is not rejected as unauthenticated; and when the
request completes generation, the turn pair is persisted exactly when the
storage backend is configured, under the declared, unverified uid —
verification is not a precondition for persistence. -/
theorem c9_unverified_uid_persisted (cfg : ServerConfig) (req : AskRequest) (P : Providers)
    (h1 : ¬ strTrim req.conversationId = "")
    (h2 : ¬ (strTrim req.answerLanguage = "" ∨ strTrim req.speakLanguage = ""))
    (hu : ¬ strTrim req.uid = "") (hfu : req.firebaseUser = none)
    (hi : inputOk req P) (hcl : cleanupOk cfg P) :
    ¬ (handleAsk cfg req P).1.errKind = some ErrKind.unauthenticated ∧
    ((¬ req.wantsStream = true ∧ (∃ out, P.gen = Except.ok out)) ∨
        (req.wantsStream = true ∧ P.genStreamErr = none) →
      (handleAsk cfg req P).2.persistAttempt =
        (if cfg.adminApp = true then some (strTrim req.uid) else none)) := by
  have h3 : ¬ (¬ strTrim req.uid = "" ∧ uidMismatch (strTrim req.uid) req.firebaseUser) := by
    rw [hfu]
    intro hc
    exact hc.2
  rw [handleAsk_pass cfg req P h1 h2 h3]
  obtain ⟨rt, sttN, hr⟩ := resolve_exists cfg req P hi
  rw [hr]
  obtain ⟨ut, cuN, hcx⟩ := cleanupStage_exists cfg req P rt sttN hcl
  rw [hcx]
  have hif : (if cfg.adminApp = true ∧ ¬ strTrim req.uid = "" then some (strTrim req.uid)
      else none) = (if cfg.adminApp = true then some (strTrim req.uid) else none) := by
    by_cases hA : cfg.adminApp = true
    · rw [if_pos ⟨hA, hu⟩, if_pos hA]
    · rw [if_neg (fun hc => hA hc.1), if_neg hA]
  constructor
  · intro hk
    rcases generateStage_errKind cfg req P rt ut sttN cuN _ hk with h | h | h <;> simp_all
  · intro hcase
    rcases hcase with ⟨hst, out, hgen⟩ | ⟨hst, hg⟩
    · rw [(generateStage_persistAttempt cfg req P rt ut sttN cuN).1 hst out hgen, hif]
    · rw [(generateStage_persistAttempt cfg req P rt ut sttN cuN).2 hst hg, hif]

def c9Cfg : ServerConfig := ⟨false, true⟩

def c9Req : AskRequest := ⟨"English", "English", "c1", "u9", [], some "hi", none, none, false⟩

def c9Prov : Providers :=
  ⟨Except.ok "t", Except.ok "", Except.ok "a", [], none, Except.ok "b", true⟩

theorem c9_unverified_uid_persisted_witness :
    ¬ (handleAsk c9Cfg c9Req c9Prov).1.errKind = some ErrKind.unauthenticated ∧
    (handleAsk c9Cfg c9Req c9Prov).2.persistAttempt =
      (if c9Cfg.adminApp = true then some (strTrim c9Req.uid) else none) := by
  have h := c9_unverified_uid_persisted c9Cfg c9Req c9Prov (by decide) (by decide)
    (by decide) rfl (Or.inr ⟨by decide, by decide⟩) (fun hcl => absurd hcl (by decide))
  exact ⟨h.1, h.2 (Or.inl ⟨by decide, "a", rfl⟩)⟩

/-- C10: when the audio payload meets the size threshold but the
transcription result trims to the empty string, the request does not fail
with `no_input` — the empty string is accepted as the resolved user text
and forwarded to the generation provider (which is called exactly once),
even when a non-empty text field was also supplied. -/
theorem c10_empty_transcript_accepted (cfg : ServerConfig) (req : AskRequest) (P : Providers)
    (h1 : ¬ strTrim req.conversationId = "")
    (h2 : ¬ (strTrim req.answerLanguage = "" ∨ strTrim req.speakLanguage = ""))
    (h3 : ¬ (¬ strTrim req.uid = "" ∧ uidMismatch (strTrim req.uid) req.firebaseUser))
    (ha : audioQualifies req) (s : String) (hstt : P.stt = Except.ok s)
    (hs0 : strTrim s = "") :
    (handleAsk cfg req P).2.resolvedText = some "" ∧
    ¬ (handleAsk cfg req P).1.errKind = some ErrKind.no_input ∧
    (handleAsk cfg req P).2.genCalls = 1 ∧
    (handleAsk cfg req P).2.genMessages =
      some (composeMessages (strTrim req.answerLanguage) "" req.history) := by
  rw [handleAsk_pass cfg req P h1 h2 h3, resolve_audio cfg req P s ha hstt, hs0]
  have hcoff : ¬ (cfg.cleanTranscript = true ∧ ¬ ("" : String) = "") := by simp
  rw [cleanup_off cfg req P "" 1 hcoff]
  refine ⟨generateStage_resolvedText cfg req P "" "" 1 0, ?_,
    generateStage_genCalls cfg req P "" "" 1 0, generateStage_genMessages cfg req P "" "" 1 0⟩
  intro hk
  rcases generateStage_errKind cfg req P "" "" 1 0 _ hk with h | h | h <;> simp_all

def c10Req : AskRequest :=
  ⟨"English", "English", "c1", "", [], some "hello", some 5000, none, false⟩

def c10Prov : Providers :=
  ⟨Except.ok "   ", Except.ok "", Except.ok "a", [], none, Except.ok "b", true⟩

theorem c10_empty_transcript_accepted_witness :
    (handleAsk wCfg c10Req c10Prov).2.resolvedText = some "" ∧
    ¬ (handleAsk wCfg c10Req c10Prov).1.errKind = some ErrKind.no_input ∧
    (handleAsk wCfg c10Req c10Prov).2.genCalls = 1 ∧
    (handleAsk wCfg c10Req c10Prov).2.genMessages =
      some (composeMessages (strTrim c10Req.answerLanguage) "" c10Req.history) :=
  c10_empty_transcript_accepted wCfg c10Req c10Prov (by decide) (by decide) (by decide)
    (by decide) "   " rfl (by decide)

def c3Req : AskRequest := ⟨"", "English", "c1", "", [], some "hi", none, none, false⟩

def c3Prov : Providers :=
  ⟨Except.ok "t", Except.ok "", Except.ok "a", [], none, Except.ok "b", true⟩

theorem c3_validation_gate_order_witness :
    (handleAsk wCfg c3Req c3Prov).1 =
      (if c3Req.wantsStream = true then
          Outcome.sse 400 [Frame.errFrame (some ErrKind.missing_language)
            (valMessage ErrKind.missing_language)] true
        else Outcome.jsonError 400 ErrKind.missing_language
          (valMessage ErrKind.missing_language)) ∧
    (handleAsk wCfg c3Req c3Prov).2.total = 0 :=
  (c3_validation_gate_order wCfg c3Req c3Prov (by decide)).1 ErrKind.missing_language 400
    (by decide)
